import Mathlib

/-!
Verification of the `avif-converter` repository (src/converter.py, src/main.py)
against its natural-language specification.

The Python source is shallowly embedded: byte buffers are `List Nat`, Python
floats produced by `round(x, 2)` are modelled exactly as rationals (the values
involved, `n / 2^20`, are dyadic and hence representable exactly as floats, so
the rational model agrees with CPython's half-even `round`), raised exceptions
are `Except` errors, and observable side effects (scratch-directory lifetime,
process launches, memory samples, the low-memory warning log line) are recorded
in an event trace.  The host environment (system memory readings, executable
presence, child exit codes, file contents) is an explicit `Env` parameter.

A central fact of this embedding, taken directly from the source: in
`monitor_subprocess_memory` the keyword arguments received from the call sites
(`capture_output=True`, `check=True`) are forwarded to `subprocess.Popen`,
whose constructor accepts neither (they are `subprocess.run`-only parameters),
so the `Popen` call raises `TypeError` before any child process starts.
Likewise the HEIC encode step names `run_with_memory_monitoring`, which is not
defined anywhere in the module, so reaching it raises `NameError`.
-/

/-- Exceptions that the embedded code can raise. -/
inductive PyError where
  | typeError
  | nameError (name : String)
  | valueError (msg : String)
  | runtimeError (msg : String)
  | calledProcessError (returncode : Int) (cmd : List String)
  | zeroDivisionError
  | fileNotFoundError (exe : String)
deriving DecidableEq, Repr

/-- Observable events of one request, in program order. -/
inductive Event where
  | scratchAcquire
  | scratchRelease
  | procLaunch (cmd : List String)
  | sysSample (availableMB : ℚ)
  | lowMemWarning (availableMB : ℚ)
deriving DecidableEq, Repr

instance {α β : Type} [DecidableEq α] [DecidableEq β] :
    DecidableEq (Except α β) := fun a b =>
  match a, b with
  | Except.ok x, Except.ok y =>
      if h : x = y then isTrue (by rw [h]) else isFalse (by simp [h])
  | Except.error x, Except.error y =>
      if h : x = y then isTrue (by rw [h]) else isFalse (by simp [h])
  | Except.ok _, Except.error _ => isFalse (by simp)
  | Except.error _, Except.ok _ => isFalse (by simp)

/-- Result of running an embedded fragment: the events it emitted, the next
system-memory sample index, and its value or the exception it raised. -/
structure Res (α : Type) where
  trace : List Event
  idx : Nat
  out : Except PyError α
deriving Repr

/-- Host environment a conversion runs in: available system memory per
`psutil.virtual_memory()` call (indexed by call order), which executables are
absent (launching such a command raises `FileNotFoundError`), the exit code a
launched command returns, what reading a path yields,
and the name of the per-request temporary directory. -/
structure Env where
  avail : Nat → ℚ
  exeAbsent : List String → Bool
  exitCode : List String → Int
  readFile : String → List Nat
  tmpdir : String

/-- Keyword arguments used at the `monitor_subprocess_memory` call sites.
`capture_output` and `check` are accepted by `subprocess.run` but rejected by
`subprocess.Popen.__init__`; `text` is accepted by both. -/
structure KwArgs where
  capture_output : Bool
  text : Bool
  check : Bool
deriving DecidableEq, Repr

/-- `subprocess.CompletedProcess` as built at converter.py:86; with no PIPE
configured, `communicate()` returns `(None, None)`. -/
structure CompletedProc where
  args : List String
  returncode : Int
  stdout : Option (List Nat)
  stderr : Option (List Nat)
deriving DecidableEq, Repr

/-- ASCII case of Python `str.lower` on one character (every tag the service
compares against is ASCII). -/
def pyLowerChar (c : Char) : Char :=
  if 65 ≤ c.toNat ∧ c.toNat ≤ 90 then Char.ofNat (c.toNat + 32) else c

/-- Python `str.lower` on ASCII strings. -/
def pyLower (s : String) : String :=
  ⟨s.data.map pyLowerChar⟩

/-- CPython `round(q, 2)`: the nearest multiple of 1/100, ties to even.  The
arithmetic is carried out on the exact fraction `q.num / q.den`: with
`s = 100 q`, `f = ⌊s⌋` and `rem = s - f` (as the integer identity
`rem = 100 q.num - f q.den` over the common denominator `q.den`), the rounded
integer is `f` when `rem < 1/2`, `f + 1` when `rem > 1/2`, and the even
neighbour on a tie.  Every value the converter rounds is a dyadic rational, so
it is represented exactly by the CPython float and this agrees with `round`. -/
def pyRound2 (q : ℚ) : ℚ :=
  let sn : Int := q.num * 100
  let sd : Int := (q.den : Int)
  let f : Int := sn / sd
  let rem : Int := sn - f * sd
  let n : Int :=
    if 2 * rem < sd then f
    else if sd < 2 * rem then f + 1
    else if f % 2 = 0 then f else f + 1
  Rat.divInt n 100

/-- converter.py:50 `get_file_size_mb`: `round(len(data) / 1024 / 1024, 2)`
(the two successive divisions are the single exact division by 1048576). -/
def get_file_size_mb (data : List Nat) : ℚ :=
  pyRound2 (Rat.divInt (data.length : Int) 1048576)

/-- converter.py:37 `log_memory_state`: logs one `get_system_memory()` reading
(process-RSS readings carry no claim-relevant state and are not recorded). -/
def log_memory_state (env : Env) (idx : Nat) : List Event × Nat :=
  ([Event.sysSample (env.avail idx)], idx + 1)

/-- Branch selected by converter.py:217-222 from `file_type.lower()`. -/
inductive Dispatch where
  | jpeg
  | heic
  | unsupported
deriving DecidableEq, Repr

/-- The dispatch test of converter.py:217-222: `file_type.lower() == "jpeg"`,
then `file_type.lower() == "heic"`, else the `ValueError` branch. -/
def selectPipeline (file_type : String) : Dispatch :=
  if pyLower file_type = "jpeg" then Dispatch.jpeg
  else if pyLower file_type = "heic" then Dispatch.heic
  else Dispatch.unsupported

/-- One pipeline stage: command line plus its input and output artifacts. -/
structure StageSpec where
  name : String
  cmd : List String
  inputPath : String
  outputPath : String
deriving DecidableEq, Repr

/-- The single JPEG stage of converter.py:113-116: `avifenc` from
`tmpdir/input.jpg` straight to `tmpdir/output.avif`. -/
def jpegStage (tmpdir : String) : StageSpec :=
  { name := "avifenc"
  , cmd := ["avifenc", "--speed", "6", "--jobs", "1",
            tmpdir ++ "/input.jpg", tmpdir ++ "/output.avif"]
  , inputPath := tmpdir ++ "/input.jpg"
  , outputPath := tmpdir ++ "/output.avif" }

/-- Pipeline plan for a JPEG request. -/
def jpegPlan (tmpdir : String) : List StageSpec :=
  [jpegStage tmpdir]

/-- HEIC decode stage of converter.py:158-160: ImageMagick `convert` from
`tmpdir/input.heic` to the bridge artifact `tmpdir/intermediate.jpg`. -/
def heicStage1 (tmpdir : String) : StageSpec :=
  { name := "ImageMagick"
  , cmd := ["convert", tmpdir ++ "/input.heic", tmpdir ++ "/intermediate.jpg"]
  , inputPath := tmpdir ++ "/input.heic"
  , outputPath := tmpdir ++ "/intermediate.jpg" }

/-- HEIC encode stage of converter.py:176-179: `avifenc` from the bridge
artifact `tmpdir/intermediate.jpg` to `tmpdir/output.avif`. -/
def heicStage2 (tmpdir : String) : StageSpec :=
  { name := "avifenc"
  , cmd := ["avifenc", "--speed", "6", "--jobs", "1",
            tmpdir ++ "/intermediate.jpg", tmpdir ++ "/output.avif"]
  , inputPath := tmpdir ++ "/intermediate.jpg"
  , outputPath := tmpdir ++ "/output.avif" }

/-- Pipeline plan for a HEIC request. -/
def heicPlan (tmpdir : String) : List StageSpec :=
  [heicStage1 tmpdir, heicStage2 tmpdir]

/-- converter.py:54-91 `monitor_subprocess_memory(process_name, cmd, **kwargs)`.
Order of effects in the source: `log_memory_state(f"PRE-...")`; then inside a
`try` block `subprocess.Popen(cmd, **kwargs)` — which raises `TypeError` when
the kwargs contain a `run`-only parameter (`capture_output` or `check`), and
`FileNotFoundError` when the executable is absent — then the poll/sleep
monitoring loop (it samples process RSS, not system memory), `communicate()`,
`log_memory_state(f"POST-...")`, and `raise CalledProcessError` on a non-zero
exit or `return CompletedProcess` on zero.  The `except Exception` handler at
line 88 runs `log_memory_state(f"ERROR-...")` on every raised exception and
re-raises it. -/
def monitor_subprocess_memory (env : Env) (cmd : List String) (kw : KwArgs)
    (idx : Nat) : Res CompletedProc :=
  let pre := log_memory_state env idx
  if kw.capture_output || kw.check then
    let err := log_memory_state env pre.2
    ⟨pre.1 ++ err.1, err.2, Except.error PyError.typeError⟩
  else if env.exeAbsent cmd then
    let err := log_memory_state env pre.2
    ⟨pre.1 ++ err.1, err.2, Except.error (PyError.fileNotFoundError (cmd.headD ""))⟩
  else
    let rc := env.exitCode cmd
    let post := log_memory_state env pre.2
    if rc = 0 then
      ⟨pre.1 ++ [Event.procLaunch cmd] ++ post.1, post.2,
        Except.ok ⟨cmd, rc, none, none⟩⟩
    else
      let err := log_memory_state env post.2
      ⟨pre.1 ++ [Event.procLaunch cmd] ++ post.1 ++ err.1, err.2,
        Except.error (PyError.calledProcessError rc cmd)⟩

/-- converter.py:93-134 `convert_jpeg_to_avif`.  `input_size` at line 95; the
`with TemporaryDirectory()` block acquires the scratch directory and releases
it on every exit; three `log_memory_state` calls around the input write and
`gc.collect()`; the monitored `avifenc` call passes
`capture_output=True, text=True, check=True`; its `except CalledProcessError`
handler only logs and re-raises, and any other exception propagates; on
success the output is read and line 131 evaluates
`(1-output_size/input_size)*100`, a `ZeroDivisionError` when `input_size`
rounded to `0.0`. -/
def convert_jpeg_to_avif (env : Env) (jpeg_data : List Nat) (idx : Nat) :
    Res (List Nat) :=
  let input_size := get_file_size_mb jpeg_data
  let s1 := log_memory_state env idx
  let s2 := log_memory_state env s1.2
  let s3 := log_memory_state env s2.2
  let r := monitor_subprocess_memory env (jpegStage env.tmpdir).cmd
      ⟨true, true, true⟩ s3.2
  match r.out with
  | Except.error e =>
      ⟨[Event.scratchAcquire] ++ s1.1 ++ s2.1 ++ s3.1 ++ r.trace
        ++ [Event.scratchRelease], r.idx, Except.error e⟩
  | Except.ok _ =>
      let s4 := log_memory_state env r.idx
      let output_data := env.readFile (jpegStage env.tmpdir).outputPath
      let _output_size := get_file_size_mb output_data
      if input_size = 0 then
        ⟨[Event.scratchAcquire] ++ s1.1 ++ s2.1 ++ s3.1 ++ r.trace ++ s4.1
          ++ [Event.scratchRelease], s4.2, Except.error PyError.zeroDivisionError⟩
      else
        let s5 := log_memory_state env s4.2
        ⟨[Event.scratchAcquire] ++ s1.1 ++ s2.1 ++ s3.1 ++ r.trace ++ s4.1
          ++ s5.1 ++ [Event.scratchRelease], s5.2, Except.ok output_data⟩

/-- converter.py:174-179, the code that runs after a successful ImageMagick
decode: the intermediate-JPEG existence check and size log (lines 165-167,
no system-memory sample), then the `try` block that names
`run_with_memory_monitoring` — a function defined nowhere in converter.py —
so evaluating line 176 raises `NameError`, which the
`except subprocess.CalledProcessError` handler does not catch.  The read of
the final artifact at lines 190-197 is unreachable behind it. -/
def heic_after_decode (env : Env) (idx : Nat) : Res (List Nat) :=
  let _jpeg_size := get_file_size_mb (env.readFile (heicStage1 env.tmpdir).outputPath)
  ⟨[], idx, Except.error (PyError.nameError "run_with_memory_monitoring")⟩

/-- converter.py:136-197 `convert_heic_to_avif_cli`.  Scratch directory via
`with TemporaryDirectory()`; three `log_memory_state` calls around the input
write; the monitored ImageMagick call passes `capture_output=True, check=True`;
its `except CalledProcessError` handler wraps the failure in
`RuntimeError("HEIC to JPEG conversion failed")`, other exceptions propagate;
after a successful decode, `heic_after_decode` models the rest. -/
def convert_heic_to_avif_cli (env : Env) (heic_data : List Nat) (idx : Nat) :
    Res (List Nat) :=
  let _input_size := get_file_size_mb heic_data
  let s1 := log_memory_state env idx
  let s2 := log_memory_state env s1.2
  let s3 := log_memory_state env s2.2
  let r := monitor_subprocess_memory env (heicStage1 env.tmpdir).cmd
      ⟨true, false, true⟩ s3.2
  match r.out with
  | Except.error (PyError.calledProcessError _ _) =>
      ⟨[Event.scratchAcquire] ++ s1.1 ++ s2.1 ++ s3.1 ++ r.trace
        ++ [Event.scratchRelease], r.idx,
        Except.error (PyError.runtimeError "HEIC to JPEG conversion failed")⟩
  | Except.error e =>
      ⟨[Event.scratchAcquire] ++ s1.1 ++ s2.1 ++ s3.1 ++ r.trace
        ++ [Event.scratchRelease], r.idx, Except.error e⟩
  | Except.ok _ =>
      let r2 := heic_after_decode env r.idx
      ⟨[Event.scratchAcquire] ++ s1.1 ++ s2.1 ++ s3.1 ++ r.trace ++ r2.trace
        ++ [Event.scratchRelease], r2.idx, r2.out⟩

/-- converter.py:199-256 `convert_to_avif(data, file_type, original_filename)`.
Preamble: `log_memory_state("START")` and the `get_system_memory()` call at
line 212 (two samples).  The `try` block dispatches on `file_type.lower()`,
raising `ValueError` for unsupported tags; on success lines 229-232 read the
output size and evaluate `(1-output_size/input_size)*100` (still inside the
`try`, so a `ZeroDivisionError` there is caught below like any failure); the
`except Exception` handler runs `log_memory_state("FAILURE")`, takes one more
`get_system_memory()` reading, logs a low-memory warning when it is below
100 MB, and re-raises. -/
def convert_to_avif (env : Env) (data : List Nat) (file_type : String)
    (_original_filename : String) : Res (List Nat) :=
  let input_size := get_file_size_mb data
  let s0 := log_memory_state env 0
  let s1 := log_memory_state env s0.2
  let r :=
    match selectPipeline file_type with
    | Dispatch.jpeg => convert_jpeg_to_avif env data s1.2
    | Dispatch.heic => convert_heic_to_avif_cli env data s1.2
    | Dispatch.unsupported =>
        (⟨[], s1.2,
          Except.error (PyError.valueError ("Unsupported file type: " ++ file_type))⟩ :
          Res (List Nat))
  let r2 : Res (List Nat) :=
    match r.out with
    | Except.ok result =>
        let s2 := log_memory_state env r.idx
        let _output_size := get_file_size_mb result
        if input_size = 0 then
          ⟨r.trace ++ s2.1, s2.2, Except.error PyError.zeroDivisionError⟩
        else
          ⟨r.trace ++ s2.1, s2.2, Except.ok result⟩
    | Except.error e => ⟨r.trace, r.idx, Except.error e⟩
  match r2.out with
  | Except.ok result => ⟨s0.1 ++ s1.1 ++ r2.trace, r2.idx, Except.ok result⟩
  | Except.error e =>
      let s3 := log_memory_state env r2.idx
      let v := env.avail s3.2
      let warn : List Event :=
        if Rat.blt v 100 then [Event.lowMemWarning v] else []
      ⟨s0.1 ++ s1.1 ++ r2.trace ++ s3.1 ++ [Event.sysSample v] ++ warn,
        s3.2 + 1, Except.error e⟩

/-- Number of scratch-directory acquisitions recorded in a trace. -/
def countScratchAcq (t : List Event) : Nat :=
  t.countP fun e => match e with | Event.scratchAcquire => true | _ => false

/-- Number of scratch-directory releases recorded in a trace. -/
def countScratchRel (t : List Event) : Nat :=
  t.countP fun e => match e with | Event.scratchRelease => true | _ => false

/-- Number of external-process launches recorded in a trace. -/
def countProcLaunch (t : List Event) : Nat :=
  t.countP fun e => match e with | Event.procLaunch _ => true | _ => false

/-- Whether a low-memory warning line was logged. -/
def lowMemWarned (t : List Event) : Bool :=
  t.any fun e => match e with | Event.lowMemWarning _ => true | _ => false

/-- Whether some system-memory sample in the trace is below `bound` MB. -/
def sampledBelow (t : List Event) (bound : ℚ) : Bool :=
  t.any fun e => match e with | Event.sysSample v => Rat.blt v bound | _ => false

/-- Outcome of the `subprocess.run(["avifenc", "--version"], ..., timeout=5)`
probe in main.py:47: normal completion with an exit code, expiry of the
5-second timeout, or a launch failure (e.g. the executable is absent). -/
inductive ProbeResult where
  | completed (rc : Int)
  | timeout
  | launchFailure
deriving DecidableEq, Repr

/-- Environment of one `/health` probe. -/
structure HealthEnv where
  probe : ProbeResult
deriving DecidableEq, Repr

/-- The fixed command of the availability probe, main.py:47. -/
def health_cmd : List String :=
  ["avifenc", "--version"]

/-- The probe timeout in seconds, main.py:47. -/
def health_timeout_sec : Nat :=
  5

/-- main.py:44-53: `avifenc_available` starts `False`; it becomes
`result.returncode == 0` on normal completion, and both the
`except TimeoutExpired` and the `except Exception` handlers only log,
leaving it `False`. -/
def health_avifenc_available (e : HealthEnv) : Bool :=
  match e.probe with
  | ProbeResult.completed rc => rc == 0
  | ProbeResult.timeout => false
  | ProbeResult.launchFailure => false

/-- Events of one `/health` probe: at most the single version-probe launch;
no conversion pipeline and no scratch directory is involved. -/
def health_events (e : HealthEnv) : List Event :=
  match e.probe with
  | ProbeResult.launchFailure => []
  | _ => [Event.procLaunch health_cmd]

/-- A benign concrete environment: plenty of memory, all tools present,
every launched command exits 0. -/
def envC : Env :=
  ⟨fun _ => 200, fun _ => false, fun _ => 0, fun _ => [], "tmp"⟩

/-- Environment whose first system-memory reading is 50 MB and all later
ones 150 MB. -/
def envDip : Env :=
  ⟨fun i => if i = 0 then 50 else 150, fun _ => false, fun _ => 0, fun _ => [], "tmp"⟩

/-- Environment where every launched command exits 1. -/
def envRC1 : Env :=
  ⟨fun _ => 200, fun _ => false, fun _ => 1, fun _ => [], "tmp"⟩

/-- Summary of the exception `convert_to_avif` raises for a given tag: the
`TypeError` from the stage launcher for both supported pipelines, the
`ValueError` of converter.py:222 otherwise. -/
def convErr (file_type : String) : PyError :=
  match selectPipeline file_type with
  | Dispatch.jpeg => PyError.typeError
  | Dispatch.heic => PyError.typeError
  | Dispatch.unsupported =>
      PyError.valueError ("Unsupported file type: " ++ file_type)

lemma convert_jpeg_out (env : Env) (data : List Nat) (idx : Nat) :
    (convert_jpeg_to_avif env data idx).out = Except.error PyError.typeError := rfl

lemma convert_heic_out (env : Env) (data : List Nat) (idx : Nat) :
    (convert_heic_to_avif_cli env data idx).out = Except.error PyError.typeError := rfl

lemma convert_to_avif_out (env : Env) (data : List Nat) (ft fn : String) :
    (convert_to_avif env data ft fn).out = Except.error (convErr ft) := by
  unfold convert_to_avif convErr
  cases hsel : selectPipeline ft <;>
    simp [hsel, convert_jpeg_out, convert_heic_out, log_memory_state]

/-- C1: the spec's scenario A is right about the intent, and the code breaks
it: for every environment and every 2 MB input buffer tagged "jpeg",
`convert_to_avif` raises `TypeError` — `monitor_subprocess_memory` forwards
the `run`-only keyword arguments `capture_output`/`check` to
`subprocess.Popen`, so the avifenc stage never starts, no AVIF bytes are
returned, and no compression ratio is produced. -/
theorem c1_jpeg_2mb_conversion_raises (env : Env) (data : List Nat)
    (fn : String) (_h : data.length = 2097152) :
    (convert_to_avif env data "jpeg" fn).out = Except.error PyError.typeError := by
  rw [convert_to_avif_out]
  decide

/-- Witness for C1 at a concrete 2 MB buffer. -/
theorem c1_jpeg_2mb_conversion_raises_witness :
    (List.replicate 2097152 (255 : Nat)).length = 2097152 ∧
    (convert_to_avif envC (List.replicate 2097152 (255 : Nat)) "jpeg" "photo.jpg").out
      = Except.error PyError.typeError := by
  refine ⟨by rw [List.length_replicate], ?_⟩
  exact c1_jpeg_2mb_conversion_raises envC _ _ (by rw [List.length_replicate])

/-- C2: the HEIC plan does link the two stages through the bridge artifact
(the encode stage's input path is exactly the decode stage's output path),
but the code never runs them: in every environment a "heic" conversion raises
`TypeError` when the decode-stage launcher forwards `run`-only keyword
arguments to `subprocess.Popen`, and even after a successful decode the code
would raise `NameError` because the encode step calls
`run_with_memory_monitoring`, which converter.py never defines.  So no HEIC
request ever reaches the encode stage, contradicting the claim that both
stages run. -/
theorem c2_heic_stages_never_run :
    (∀ t : String, (heicStage2 t).inputPath = (heicStage1 t).outputPath) ∧
    (∀ t : String, heicPlan t = [heicStage1 t, heicStage2 t]) ∧
    (∀ env idx, (heic_after_decode env idx).out
        = Except.error (PyError.nameError "run_with_memory_monitoring")) ∧
    (∀ (env : Env) (data : List Nat) (fn : String),
        (convert_to_avif env data "heic" fn).out
          = Except.error PyError.typeError) := by
  refine ⟨fun t => rfl, fun t => rfl, fun env idx => rfl, fun env data fn => ?_⟩
  rw [convert_to_avif_out]
  decide

/-- C5 counterexample: a monitored stage whose child exits with status 1
(keyword arguments acceptable to `Popen`, executable present) makes
`monitor_subprocess_memory` raise `CalledProcessError` — the result is a
raised exception, not a returned failed stage result. -/
theorem c5_counterexample :
    (monitor_subprocess_memory envRC1 ["avifenc", "in.jpg", "out.avif"]
        ⟨false, false, false⟩ 0).out
      = Except.error
          (PyError.calledProcessError 1 ["avifenc", "in.jpg", "out.avif"]) := by
  decide

/-- C5 amended: for every monitored stage execution whose child exits with a
non-zero status, `monitor_subprocess_memory` raises
`subprocess.CalledProcessError` carrying the exit code and the command
(converter.py:84), rather than returning a failed result value; the calling
conversion functions catch and translate it. -/
theorem c5_nonzero_exit_raises (env : Env) (cmd : List String) (kw : KwArgs)
    (idx : Nat) (hco : kw.capture_output = false) (hck : kw.check = false)
    (habs : env.exeAbsent cmd = false)
    (hrc : env.exitCode cmd ≠ 0) :
    (monitor_subprocess_memory env cmd kw idx).out
      = Except.error (PyError.calledProcessError (env.exitCode cmd) cmd) := by
  unfold monitor_subprocess_memory
  simp [hco, hck, habs, hrc, log_memory_state]

/-- Witness for C5's amended theorem at a concrete environment with exit
code 1. -/
theorem c5_nonzero_exit_raises_witness :
    envRC1.exitCode ["convert", "a.heic", "b.jpg"] ≠ 0 ∧
    (monitor_subprocess_memory envRC1 ["convert", "a.heic", "b.jpg"]
        ⟨false, true, false⟩ 7).out
      = Except.error
          (PyError.calledProcessError (envRC1.exitCode ["convert", "a.heic", "b.jpg"])
            ["convert", "a.heic", "b.jpg"]) := by
  refine ⟨by decide, ?_⟩
  exact c5_nonzero_exit_raises envRC1 ["convert", "a.heic", "b.jpg"]
    ⟨false, true, false⟩ 7 rfl rfl rfl (by decide)

/-- C6: the JPEG pipeline plan has exactly one stage — a single avifenc
encode whose input artifact is the staged JPEG and whose output artifact is
the final AVIF, with no intermediate bridge artifact between them. -/
theorem c6_jpeg_plan_single_stage (tmpdir : String) :
    jpegPlan tmpdir = [jpegStage tmpdir] ∧
    (jpegPlan tmpdir).length = 1 ∧
    (jpegStage tmpdir).cmd
      = ["avifenc", "--speed", "6", "--jobs", "1",
         tmpdir ++ "/input.jpg", tmpdir ++ "/output.avif"] ∧
    (jpegStage tmpdir).inputPath = tmpdir ++ "/input.jpg" ∧
    (jpegStage tmpdir).outputPath = tmpdir ++ "/output.avif" :=
  ⟨rfl, rfl, rfl, rfl, rfl⟩

/-- C10: the dispatch in `convert_to_avif` compares `file_type.lower()`
against "jpeg" and "heic", so every string lower-casing to one of them
selects the corresponding pipeline; in particular "JPEG" and "Heic", which
lie outside the literal set of tags named by the data model, are accepted —
the accepted set is strictly larger. -/
theorem c10_case_insensitive_dispatch :
    (∀ s, pyLower s = "jpeg" → selectPipeline s = Dispatch.jpeg) ∧
    (∀ s, pyLower s = "heic" → selectPipeline s = Dispatch.heic) ∧
    selectPipeline "JPEG" = Dispatch.jpeg ∧
    selectPipeline "Heic" = Dispatch.heic ∧
    ("JPEG" ≠ "jpeg" ∧ "JPEG" ≠ "heic" ∧ "Heic" ≠ "jpeg" ∧ "Heic" ≠ "heic") := by
  refine ⟨fun s h => ?_, fun s h => ?_, by decide, by decide,
    by decide, by decide, by decide, by decide⟩
  · unfold selectPipeline
    rw [h]
    decide
  · unfold selectPipeline
    rw [h]
    decide

/-- Witness for C10 at the concrete tag "JPEG". -/
theorem c10_case_insensitive_dispatch_witness :
    pyLower "JPEG" = "jpeg" ∧ selectPipeline "JPEG" = Dispatch.jpeg :=
  ⟨by decide, c10_case_insensitive_dispatch.1 "JPEG" (by decide)⟩

lemma pyRound2_zero_of_small (q : ℚ) (h0 : 0 ≤ q)
    (h : 200 * q.num < (q.den : Int)) : pyRound2 q = 0 := by
  have hnum : 0 ≤ q.num := Rat.num_nonneg.mpr h0
  have hd : (0 : Int) < (q.den : Int) := by exact_mod_cast q.den_pos
  have h100 : (0 : Int) ≤ q.num * 100 := by nlinarith
  have hlt : q.num * 100 < (q.den : Int) := by nlinarith
  have hf : q.num * 100 / (q.den : Int) = 0 := Int.ediv_eq_zero_of_lt h100 hlt
  simp only [pyRound2]
  rw [hf]
  have hcond : 2 * (q.num * 100 - 0 * (q.den : Int)) < (q.den : Int) := by nlinarith
  rw [if_pos hcond]
  exact Rat.zero_divInt 100

lemma get_file_size_mb_zero (data : List Nat) (h : data.length ≤ 5242) :
    get_file_size_mb data = 0 := by
  unfold get_file_size_mb
  set q : ℚ := Rat.divInt (data.length : Int) 1048576 with hq
  have hlen : ((data.length : Int)) ≤ 5242 := by exact_mod_cast h
  have hd : (0 : Int) < (q.den : Int) := by exact_mod_cast q.den_pos
  have hden : ((q.den : Int)) ≠ 0 := hd.ne'
  have h0 : 0 ≤ q := by
    rw [hq]
    exact Rat.divInt_nonneg (by exact_mod_cast Nat.zero_le _) (by norm_num)
  apply pyRound2_zero_of_small q h0
  have h1 : Rat.divInt (data.length : Int) 1048576 = Rat.divInt q.num (q.den : Int) := by
    rw [Rat.num_divInt_den, hq]
  have hcross : (data.length : Int) * (q.den : Int) = q.num * 1048576 :=
    (Rat.divInt_eq_iff (by norm_num) hden).mp h1
  have h2 : q.num * 1048576 ≤ 5242 * (q.den : Int) := by
    rw [← hcross]
    exact mul_le_mul_of_nonneg_right hlen hd.le
  nlinarith

/-- C9 counterexample: a 3-byte buffer tagged "jpeg" does round to 0.00 MB,
but `convert_to_avif` raises `TypeError`, not `ZeroDivisionError` — the
division at converter.py:131 is never reached because the stage launcher
fails first. -/
theorem c9_counterexample :
    get_file_size_mb [255, 216, 255] = 0 ∧
    (convert_to_avif envC [255, 216, 255] "jpeg" "tiny.jpg").out
      = Except.error PyError.typeError ∧
    (convert_to_avif envC [255, 216, 255] "jpeg" "tiny.jpg").out
      ≠ Except.error PyError.zeroDivisionError := by
  refine ⟨by decide, by decide, by decide⟩

/-- C9 amended: the guard the claim points at is indeed absent —
`get_file_size_mb` rounds every buffer of at most 5242 bytes to `0.0` (and
5243 bytes already round away from zero), so the ratio expression at
converter.py:131 would divide by zero if the avifenc stage could succeed —
but in the shipped code every "jpeg" conversion raises `TypeError` in
`monitor_subprocess_memory` before any stage runs, so the
`ZeroDivisionError` is unreachable and tiny inputs fail with `TypeError`
like all others. -/
theorem c9_tiny_input_division_unreachable :
    (∀ data : List Nat, data.length ≤ 5242 → get_file_size_mb data = 0) ∧
    (∀ data : List Nat, data.length = 5243 → get_file_size_mb data ≠ 0) ∧
    (∀ (env : Env) (data : List Nat) (fn : String),
        (convert_to_avif env data "jpeg" fn).out
          = Except.error PyError.typeError) := by
  refine ⟨fun data h => get_file_size_mb_zero data h, fun data h => ?_, fun env data fn => ?_⟩
  · unfold get_file_size_mb
    rw [h]
    decide
  · rw [convert_to_avif_out]
    decide

/-- Witness for C9's amended theorem at concrete tiny inputs. -/
theorem c9_tiny_input_division_unreachable_witness :
    ([0, 1, 2, 3, 4] : List Nat).length ≤ 5242 ∧
    get_file_size_mb [0, 1, 2, 3, 4] = 0 := by
  refine ⟨by decide, ?_⟩
  exact c9_tiny_input_division_unreachable.1 [0, 1, 2, 3, 4] (by decide)

lemma convert_jpeg_res (env : Env) (data : List Nat) (ft fn : String)
    (hsel : selectPipeline ft = Dispatch.jpeg) :
    convert_to_avif env data ft fn =
      ⟨[Event.sysSample (env.avail 0), Event.sysSample (env.avail 1),
        Event.scratchAcquire, Event.sysSample (env.avail 2),
        Event.sysSample (env.avail 3), Event.sysSample (env.avail 4),
        Event.sysSample (env.avail 5), Event.sysSample (env.avail 6),
        Event.scratchRelease, Event.sysSample (env.avail 7),
        Event.sysSample (env.avail 8)]
        ++ (if Rat.blt (env.avail 8) 100
            then [Event.lowMemWarning (env.avail 8)] else []),
       9, Except.error PyError.typeError⟩ := by
  unfold convert_to_avif
  rw [hsel]
  rfl

lemma convert_heic_res (env : Env) (data : List Nat) (ft fn : String)
    (hsel : selectPipeline ft = Dispatch.heic) :
    convert_to_avif env data ft fn =
      ⟨[Event.sysSample (env.avail 0), Event.sysSample (env.avail 1),
        Event.scratchAcquire, Event.sysSample (env.avail 2),
        Event.sysSample (env.avail 3), Event.sysSample (env.avail 4),
        Event.sysSample (env.avail 5), Event.sysSample (env.avail 6),
        Event.scratchRelease, Event.sysSample (env.avail 7),
        Event.sysSample (env.avail 8)]
        ++ (if Rat.blt (env.avail 8) 100
            then [Event.lowMemWarning (env.avail 8)] else []),
       9, Except.error PyError.typeError⟩ := by
  unfold convert_to_avif
  rw [hsel]
  rfl

lemma convert_unsupported_res (env : Env) (data : List Nat) (ft fn : String)
    (hsel : selectPipeline ft = Dispatch.unsupported) :
    convert_to_avif env data ft fn =
      ⟨[Event.sysSample (env.avail 0), Event.sysSample (env.avail 1),
        Event.sysSample (env.avail 2), Event.sysSample (env.avail 3)]
        ++ (if Rat.blt (env.avail 3) 100
            then [Event.lowMemWarning (env.avail 3)] else []),
       4, Except.error
            (PyError.valueError ("Unsupported file type: " ++ ft))⟩ := by
  unfold convert_to_avif
  rw [hsel]
  rfl

/-- C3: whenever `convert_to_avif` proceeds past format validation (the tag
lower-cases to a supported one), the scratch directory is acquired exactly
once and released exactly once on every exit path — here every path ends in
a raised exception, and `with tempfile.TemporaryDirectory()` still releases
the directory before the exception propagates, so no scratch directory
outlives the call. -/
theorem c3_scratch_released_exactly_once (env : Env) (data : List Nat)
    (ft fn : String) (h : selectPipeline ft ≠ Dispatch.unsupported) :
    countScratchAcq (convert_to_avif env data ft fn).trace = 1 ∧
    countScratchRel (convert_to_avif env data ft fn).trace = 1 := by
  cases hsel : selectPipeline ft with
  | jpeg =>
      rw [convert_jpeg_res env data ft fn hsel]
      cases hb : Rat.blt (env.avail 8) 100 <;>
        simp [hb, countScratchAcq, countScratchRel]
  | heic =>
      rw [convert_heic_res env data ft fn hsel]
      cases hb : Rat.blt (env.avail 8) 100 <;>
        simp [hb, countScratchAcq, countScratchRel]
  | unsupported => exact absurd hsel h

/-- Witness for C3 at a concrete supported request. -/
theorem c3_scratch_released_exactly_once_witness :
    selectPipeline "jpeg" ≠ Dispatch.unsupported ∧
    (countScratchAcq (convert_to_avif envC [0] "jpeg" "a.jpg").trace = 1 ∧
     countScratchRel (convert_to_avif envC [0] "jpeg" "a.jpg").trace = 1) :=
  ⟨by decide, c3_scratch_released_exactly_once envC [0] "jpeg" "a.jpg" (by decide)⟩

/-- C4 counterexample: the tag "JPEG" lies outside the closed set
of literal tags, yet `convert_to_avif` does not fail with the
`ValueError` input rejection: it selects the JPEG pipeline, creates a
scratch directory, and fails with the launcher's `TypeError` instead. -/
theorem c4_counterexample :
    ("JPEG" ≠ "jpeg" ∧ "JPEG" ≠ "heic") ∧
    countScratchAcq (convert_to_avif envC [0] "JPEG" "a.jpg").trace = 1 ∧
    (convert_to_avif envC [0] "JPEG" "a.jpg").out
      = Except.error PyError.typeError := by
  exact ⟨⟨by decide, by decide⟩, by decide, by decide⟩

/-- C4 amended: for every tag whose Python `lower()` falls outside
the supported set (so that `selectPipeline` rejects it),
`convert_to_avif` raises the `ValueError` of converter.py:222 immediately:
no stage runs, no external process is launched, and no scratch directory is
created.  (Tags that merely differ in case, such as "JPEG", are instead
accepted — see the counterexample.) -/
theorem c4_unsupported_tag_rejected (env : Env) (data : List Nat)
    (ft fn : String) (hsel : selectPipeline ft = Dispatch.unsupported) :
    (convert_to_avif env data ft fn).out
      = Except.error (PyError.valueError ("Unsupported file type: " ++ ft)) ∧
    countScratchAcq (convert_to_avif env data ft fn).trace = 0 ∧
    countProcLaunch (convert_to_avif env data ft fn).trace = 0 := by
  rw [convert_unsupported_res env data ft fn hsel]
  refine ⟨rfl, ?_, ?_⟩ <;>
    cases hb : Rat.blt (env.avail 3) 100 <;>
      simp [hb, countScratchAcq, countProcLaunch]

/-- Witness for C4's amended theorem at the concrete tag "png". -/
theorem c4_unsupported_tag_rejected_witness :
    selectPipeline "png" = Dispatch.unsupported ∧
    ((convert_to_avif envC [0] "png" "a.png").out
        = Except.error (PyError.valueError ("Unsupported file type: " ++ "png")) ∧
     countScratchAcq (convert_to_avif envC [0] "png" "a.png").trace = 0 ∧
     countProcLaunch (convert_to_avif envC [0] "png" "a.png").trace = 0) :=
  ⟨by decide, c4_unsupported_tag_rejected envC [0] "png" "a.png" (by decide)⟩

/-- C7: the avifenc availability check is the fixed probe
`subprocess.run(["avifenc", "--version"], timeout=5)`: a non-zero exit, a
timeout, or a launch failure (tool absent) each leave `avifenc_available`
false, and the probe's only possible event is launching that version
command — no conversion pipeline and no scratch directory is involved. -/
theorem c7_tool_availability_check :
    (∀ rc : Int, rc ≠ 0 →
        health_avifenc_available ⟨ProbeResult.completed rc⟩ = false) ∧
    health_avifenc_available ⟨ProbeResult.timeout⟩ = false ∧
    health_avifenc_available ⟨ProbeResult.launchFailure⟩ = false ∧
    health_cmd = ["avifenc", "--version"] ∧
    0 < health_timeout_sec ∧
    (∀ (e : HealthEnv), ∀ ev ∈ health_events e,
        ev = Event.procLaunch health_cmd) := by
  refine ⟨fun rc h => ?_, rfl, rfl, rfl, by decide, fun e ev hev => ?_⟩
  · simp only [health_avifenc_available]
    exact beq_eq_false_iff_ne.mpr h
  · cases e with
    | mk probe =>
        cases probe <;> simp [health_events] at hev <;> simp [hev]

/-- Witness for C7 at a concrete failing probe. -/
theorem c7_tool_availability_check_witness :
    (1 : Int) ≠ 0 ∧
    health_avifenc_available ⟨ProbeResult.completed 1⟩ = false :=
  ⟨by decide, c7_tool_availability_check.1 1 (by decide)⟩

/-- C8 counterexample: in a run whose first system-memory sample is 50 MB
(below the 100 MB bound) but whose later failure-time sample is 150 MB, the
trace records the dip yet carries no low-memory warning — the code only
checks the bound on a fresh sample taken in the failure handler, so memory
falling below 100 MB during a conversion does not imply a warning
annotation. -/
theorem c8_counterexample :
    sampledBelow (convert_to_avif envDip [0] "jpeg" "a.jpg").trace 100 = true ∧
    lowMemWarned (convert_to_avif envDip [0] "jpeg" "a.jpg").trace = false := by
  exact ⟨by decide, by decide⟩

/-- C8 amended: every call to `convert_to_avif` ends in a raised exception,
and the low-memory warning line is logged exactly when the single
`get_system_memory()` sample taken inside the failure handler (the last
sample of the run) is below 100 MB; the memory readings never influence the
outcome — replacing the whole system-memory trajectory leaves the result
unchanged — so low memory never by itself turns a conversion that would
succeed into a failure, but neither does a dip during the conversion
guarantee a warning, and the warning is a log line rather than an
annotation on a success outcome. -/
theorem c8_low_memory_warning_semantics (env : Env) (a1 a2 : Nat → ℚ)
    (data : List Nat) (ft fn : String) :
    (∃ e, (convert_to_avif env data ft fn).out = Except.error e) ∧
    lowMemWarned (convert_to_avif env data ft fn).trace
      = Rat.blt (env.avail ((convert_to_avif env data ft fn).idx - 1)) 100 ∧
    (convert_to_avif { env with avail := a1 } data ft fn).out
      = (convert_to_avif { env with avail := a2 } data ft fn).out := by
  refine ⟨⟨convErr ft, convert_to_avif_out env data ft fn⟩, ?_, ?_⟩
  · cases hsel : selectPipeline ft with
    | jpeg =>
        rw [convert_jpeg_res env data ft fn hsel]
        cases hb : Rat.blt (env.avail 8) 100 <;> simp [hb, lowMemWarned]
    | heic =>
        rw [convert_heic_res env data ft fn hsel]
        cases hb : Rat.blt (env.avail 8) 100 <;> simp [hb, lowMemWarned]
    | unsupported =>
        rw [convert_unsupported_res env data ft fn hsel]
        cases hb : Rat.blt (env.avail 3) 100 <;> simp [hb, lowMemWarned]
  · rw [convert_to_avif_out, convert_to_avif_out]
